import Mathlib

/-!
# RedTimer time-tracking core: a shallow embedding

This file embeds the time-tracking core of the RedTimer application
(`src/RedTimer.h`) and proves the specified properties about it.

The repository ships only the class declaration `RedTimer.h`; the member
function bodies are not part of the source tree.  The state machine below is
therefore modelled from the specification (spec.md §3, §4.1–§4.3, §7), with the
declarations and doc comments of `RedTimer.h` as the authority wherever they
speak: parameter names, parameter defaults (`loadIssue(int, bool startTimer =
true, bool saveNewIssue = false)`, `stop(bool resetTimerOnError = true, bool
stopTimerAfterSaving = true)`), the initial counter value (`int counter_ = 0`),
the meaning of `saveNewIssue` ("When saving tracked time, save time for the
newly loaded issue"), and the recent-issue cropping rule ("adds the issue to
the top of the recent issues list and crops the list after ten entries").

Asynchronous collaborator outcomes (issue fetch results, time-entry creation
success) are supplied as oracle arguments on each operation, and the calls and
notifications the controller emits are recorded as an explicit event list.
-/

namespace RedTimer

/-- An issue of the remote tracking system: identifier, subject, activity and
status identifiers (spec.md §3). -/
structure Issue where
  id : Int
  subject : String
  activityId : Int
  statusId : Int
deriving Repr, DecidableEq, BEq

/-- Error kinds surfaced by the controller (spec.md §7). -/
inductive ErrKind
  | NetworkFailure
  | RemoteRejection
  | InvalidLocalState
  | StaleResponse
deriving Repr, DecidableEq, BEq

/-- Message severities of the presentation-layer `message` event (spec.md §6). -/
inductive Severity
  | info
  | warning
  | error
deriving Repr, DecidableEq, BEq

/-- Observable events of the controller: remote `createTimeEntry` requests and
the notifications emitted towards the presentation layer (spec.md §6). -/
inductive Ev
  | createTimeEntry (issueId : Int) (activityId : Int) (duration : Int) (timestamp : Nat)
  | timeEntrySaved
  | report (kind : ErrKind) (severity : Severity)
deriving Repr, DecidableEq, BEq

/-- Modelled from the spec: the state owned by the `TimeTrackingController`
(`RedTimer` class, src/RedTimer.h lines 57–79): the timer activity flag
(`timer_`), the tracked seconds (`counter_`, an `int` initialised to 0), the
current issue (`issue_`), the current activity (`activityId_`), the cached
activities (`activityModel_`) and the recent issues list (`recentIssues_`).
A wall clock is threaded through so that `createTimeEntry` requests can carry
their timestamp (spec.md §4.2). -/
structure CtrlState where
  running : Bool
  elapsedSeconds : Int
  activeIssue : Option Issue
  activityId : Int
  activityCache : List Int
  recentIssues : List Issue
  clock : Nat
deriving Repr, DecidableEq, BEq

/-- The initial state: `Idle`, nothing tracked (`counter_ = 0` in
src/RedTimer.h line 61, `activityId_ = NULL_ID` in line 67). -/
def initState : CtrlState :=
  { running := false
    elapsedSeconds := 0
    activeIssue := none
    activityId := -1
    activityCache := []
    recentIssues := []
    clock := 0 }

/-- `RedTimer::addRecentIssue` (src/RedTimer.h lines 81–88): adds the issue to
the top of the recent issues list and crops the list after ten entries; an
already-present identifier is removed first so the list stays unique
(spec.md §4.3). -/
def addRecentIssue (recentIssues : List Issue) (issue : Issue) : List Issue :=
  (issue :: recentIssues.filter (fun i => i.id ≠ issue.id)).take 10

/-- Modelled from the spec: the stop-and-save sequence of §4.2 `stop`, missing
from src/ together with the rest of `RedTimer.cpp`.  `targetId` is the issue
the pending time is attributed to.  If nothing is tracked, the remote save is
skipped and ticking merely halts.  Otherwise a `createTimeEntry` request is
issued; on success the counter resets to 0 and `timeEntrySaved` is emitted; on
failure the error is reported and the counter resets only if `resetOnError`.
Ticking always halts (spec.md §4.2, §9). -/
def doStopTarget (st : CtrlState) (targetId : Int) (resetOnError saveOk : Bool) :
    CtrlState × List Ev :=
  if st.elapsedSeconds = 0 then
    ({ st with running := false }, [])
  else if saveOk then
    ({ st with running := false, elapsedSeconds := 0 },
     [Ev.createTimeEntry targetId st.activityId st.elapsedSeconds st.clock,
      Ev.timeEntrySaved])
  else
    ({ st with running := false,
               elapsedSeconds := if resetOnError then 0 else st.elapsedSeconds },
     [Ev.createTimeEntry targetId st.activityId st.elapsedSeconds st.clock,
      Ev.report ErrKind.NetworkFailure Severity.error])

/-- Modelled from the spec: `RedTimer::stop` (declared src/RedTimer.h lines
263–273, body missing).  The pending time is attributed to the current issue;
with no time pending the remote save is skipped; `stopTimerAfterSaving` does
not affect the modelled state because ticking always halts on stop
(spec.md §4.2, §9). -/
def stopStep (st : CtrlState) (resetTimerOnError stopTimerAfterSaving saveOk : Bool) :
    CtrlState × List Ev :=
  match st.activeIssue with
  | none => ({ st with running := false }, [])
  | some issue => doStopTarget st issue.id resetTimerOnError saveOk

/-- Modelled from the spec: `RedTimer::start` (declared src/RedTimer.h lines
242–251, body missing; its doc comment: if the timer is already active, the
previously tracked time will be saved first and the new time tracking will be
started; requires the current issue to be set).  With no active issue the call
fails with `InvalidLocalState`, reported as a warning, and the state is
unchanged (spec.md §4.2, §7). -/
def startStep (st : CtrlState) (saveOk : Bool) : CtrlState × List Ev :=
  match st.activeIssue with
  | none => (st, [Ev.report ErrKind.InvalidLocalState Severity.warning])
  | some issue =>
    if st.running then
      let p := doStopTarget st issue.id true saveOk
      ({ p.1 with running := true, elapsedSeconds := 0 }, p.2)
    else
      ({ st with running := true }, [])

/-- Modelled from the spec: `RedTimer::startStop` (declared src/RedTimer.h
lines 253–261, body missing): start if inactive, stop with defaults if
active (spec.md §4.2). -/
def startStopStep (st : CtrlState) (saveOk : Bool) : CtrlState × List Ev :=
  if st.running then stopStep st true true saveOk else startStep st saveOk

/-- Modelled from the spec: the part of `loadIssue` that runs before the
fetch: if currently running on a different issue, the stop-and-save sequence
is executed first, so that its `createTimeEntry` request is issued before the
new issue's load request (spec.md §5 ordering guarantee); per the header doc
comment of src/RedTimer.h line 203, `saveNewIssue` decides whether that
pending time is attributed to the newly loaded issue (true) or to the current
one (false). -/
def loadIssuePre (st : CtrlState) (issueId : Int) (saveNewIssue saveOk : Bool) :
    CtrlState × List Ev :=
  match st.activeIssue with
  | some prev =>
    if st.running = true ∧ prev.id ≠ issueId then
      doStopTarget st (if saveNewIssue then issueId else prev.id) true saveOk
    else (st, [])
  | none => (st, [])

/-- Modelled from the spec: the part of `loadIssue` that runs when the fetch
succeeds: the fetched issue becomes active and is added to the recent issues,
the state is `Loaded`, and `startTimer` then starts tracking (spec.md §4.2). -/
def loadIssueFinish (p1 : CtrlState × List Ev) (issue : Issue)
    (startTimer saveOk : Bool) : CtrlState × List Ev :=
  let st2 : CtrlState :=
    { p1.1 with running := false
                activeIssue := some issue
                recentIssues := addRecentIssue p1.1.recentIssues issue }
  if startTimer then
    let p3 := startStep st2 saveOk
    (p3.1, p1.2 ++ p3.2)
  else (st2, p1.2)

/-- Modelled from the spec: `RedTimer::loadIssue` (declared src/RedTimer.h
lines 191–205, body missing).  If currently running on a different issue, the
stop-and-save sequence runs before the fetch; per the header doc comment,
`saveNewIssue` decides whether the pending time is saved for the newly loaded
issue (true) or for the current one (false, the default).  On a successful
fetch the issue becomes active, is added to the recent issues, and the state
is `Loaded`; `startTimer` then starts tracking.  A fetch error is reported and
leaves `activeIssue` unchanged (spec.md §4.2, §7). -/
def loadIssueStep (st : CtrlState) (issueId : Int) (startTimer saveNewIssue : Bool)
    (fetched : Option Issue) (saveOk : Bool) : CtrlState × List Ev :=
  match fetched with
  | none =>
    ((loadIssuePre st issueId saveNewIssue saveOk).1,
     (loadIssuePre st issueId saveNewIssue saveOk).2 ++
       [Ev.report ErrKind.NetworkFailure Severity.error])
  | some issue =>
    loadIssueFinish (loadIssuePre st issueId saveNewIssue saveOk) issue
      startTimer saveOk

/-- Modelled from the spec: `RedTimer::activitySelected` / `selectActivity`
(src/RedTimer.h lines 146–150): sets the activity used on the next save,
validated against the cached activity set (spec.md §4.2). -/
def selectActivityStep (st : CtrlState) (aId : Int) : CtrlState × List Ev :=
  if aId ∈ st.activityCache then
    ({ st with activityId := aId }, [])
  else
    (st, [Ev.report ErrKind.InvalidLocalState Severity.warning])

/-- Modelled from the spec: `RedTimer::updateIssueStatus` (declared
src/RedTimer.h lines 287–292, body missing): on success updates the local
issue status; on failure reports the error and leaves it unchanged, no
optimistic update (spec.md §4.2). -/
def updateIssueStatusStep (st : CtrlState) (statusId : Int) (ok : Bool) :
    CtrlState × List Ev :=
  match st.activeIssue with
  | none => (st, [Ev.report ErrKind.InvalidLocalState Severity.warning])
  | some issue =>
    if ok then
      ({ st with activeIssue := some { issue with statusId := statusId } }, [])
    else
      (st, [Ev.report ErrKind.RemoteRejection Severity.error])

/-- Modelled from the spec: one tick of the `ElapsedCounter`
(`RedTimer::refreshCounter`, src/RedTimer.h lines 227–230): while running, the
tracked seconds increase by one; the wall clock always advances
(spec.md §4.1). -/
def tickStep (st : CtrlState) : CtrlState :=
  if st.running then
    { st with elapsedSeconds := st.elapsedSeconds + 1, clock := st.clock + 1 }
  else
    { st with clock := st.clock + 1 }

/-- The operations of the controller, each carrying the oracle outcomes of the
asynchronous collaborator calls it may make (`saveOk` for `createTimeEntry`,
`fetched` for the issue fetch, `ok` for the status update). -/
inductive Op
  | tick
  | start (saveOk : Bool)
  | stop (resetTimerOnError stopTimerAfterSaving saveOk : Bool)
  | startStop (saveOk : Bool)
  | loadIssue (issueId : Int) (startTimer saveNewIssue : Bool)
      (fetched : Option Issue) (saveOk : Bool)
  | selectActivity (aId : Int)
  | updateIssueStatus (statusId : Int) (ok : Bool)
  | loadActivities (acts : List Int)
deriving Repr, DecidableEq, BEq

/-- One controller step: the new state and the events emitted. -/
def step (st : CtrlState) : Op → CtrlState × List Ev
  | Op.tick => (tickStep st, [])
  | Op.start saveOk => startStep st saveOk
  | Op.stop r s saveOk => stopStep st r s saveOk
  | Op.startStop saveOk => startStopStep st saveOk
  | Op.loadIssue issueId startTimer saveNewIssue fetched saveOk =>
      loadIssueStep st issueId startTimer saveNewIssue fetched saveOk
  | Op.selectActivity aId => selectActivityStep st aId
  | Op.updateIssueStatus statusId ok => updateIssueStatusStep st statusId ok
  | Op.loadActivities acts => ({ st with activityCache := acts }, [])

/-- Run a sequence of operations, accumulating the emitted events. -/
def run (st : CtrlState) : List Op → CtrlState × List Ev
  | [] => (st, [])
  | op :: ops =>
    let p := step st op
    let q := run p.1 ops
    (q.1, p.2 ++ q.2)

/-- `loadIssue` called with the C++ default arguments of src/RedTimer.h line
205: `startTimer = true` and `saveNewIssue = false`. -/
def loadIssueDefaults (issueId : Int) (fetched : Option Issue) (saveOk : Bool) : Op :=
  Op.loadIssue issueId true false fetched saveOk

/-- The states reachable from `initState` by controller steps. -/
inductive Reachable : CtrlState → Prop
  | init : Reachable initState
  | next (st : CtrlState) (op : Op) : Reachable st → Reachable (step st op).1

/-- Whether an event is a remote `createTimeEntry` request. -/
def isCreate : Ev → Bool
  | Ev.createTimeEntry _ _ _ _ => true
  | _ => false

/-- Number of remote `createTimeEntry` requests in an event list. -/
def numCreates (evs : List Ev) : Nat := (evs.filter isCreate).length

/-- The save of this step succeeded: `timeEntrySaved` was emitted. -/
def savedOk (evs : List Ev) : Prop := Ev.timeEntrySaved ∈ evs

/-- The `resetTimerOnError` flag an operation passes to the stop-and-save
sequence: the explicit first argument for `stop`, the default `true` for the
internal stops of `start`, `startStop` and `loadIssue`. -/
def resetOnErrorFlag : Op → Bool
  | Op.stop r _ _ => r
  | _ => true

/-- The step discarded pending tracked time: a save was attempted, failed, and
the counter reset was requested. -/
def discardsTime (op : Op) (evs : List Ev) : Prop :=
  resetOnErrorFlag op = true ∧ 0 < numCreates evs ∧ Ev.timeEntrySaved ∉ evs

/-- Which operations carry a successful `createTimeEntry` oracle. -/
def saveOracle : Op → Bool
  | Op.start saveOk => saveOk
  | Op.stop _ _ saveOk => saveOk
  | Op.startStop saveOk => saveOk
  | Op.loadIssue _ _ _ _ saveOk => saveOk
  | _ => false

/-- Number of `timeEntrySaved` notifications in an event list. -/
def countSaved (evs : List Ev) : Nat :=
  (evs.filter (fun e => e = Ev.timeEntrySaved)).length

/-! ### Demonstration values used by the concrete witnesses -/

/-- A sample issue. -/
def issueA : Issue := ⟨1, "timer refactoring", 9, 1⟩

/-- A second sample issue with a different identifier. -/
def issueB : Issue := ⟨2, "tray icon", 9, 1⟩

/-- A sample state: running on `issueA` with 30 tracked seconds. -/
def runningState : CtrlState :=
  { running := true
    elapsedSeconds := 30
    activeIssue := some issueA
    activityId := 9
    activityCache := [9]
    recentIssues := [issueA]
    clock := 30 }

/-- The sample running state with nothing tracked yet. -/
def runningStateZero : CtrlState := { runningState with elapsedSeconds := 0 }

/-! ### Basic facts about the stop-and-save sequence -/

@[simp] lemma doStopTarget_activeIssue (st : CtrlState) (tid : Int) (r ok : Bool) :
    (doStopTarget st tid r ok).1.activeIssue = st.activeIssue := by
  unfold doStopTarget; split_ifs <;> rfl

@[simp] lemma doStopTarget_running (st : CtrlState) (tid : Int) (r ok : Bool) :
    (doStopTarget st tid r ok).1.running = false := by
  unfold doStopTarget; split_ifs <;> rfl

@[simp] lemma doStopTarget_activityId (st : CtrlState) (tid : Int) (r ok : Bool) :
    (doStopTarget st tid r ok).1.activityId = st.activityId := by
  unfold doStopTarget; split_ifs <;> rfl

@[simp] lemma doStopTarget_clock (st : CtrlState) (tid : Int) (r ok : Bool) :
    (doStopTarget st tid r ok).1.clock = st.clock := by
  unfold doStopTarget; split_ifs <;> rfl

@[simp] lemma doStopTarget_recentIssues (st : CtrlState) (tid : Int) (r ok : Bool) :
    (doStopTarget st tid r ok).1.recentIssues = st.recentIssues := by
  unfold doStopTarget; split_ifs <;> rfl

lemma doStopTarget_elapsed_cases (st : CtrlState) (tid : Int) (r ok : Bool) :
    (doStopTarget st tid r ok).1.elapsedSeconds = 0 ∨
    (doStopTarget st tid r ok).1.elapsedSeconds = st.elapsedSeconds := by
  unfold doStopTarget
  split_ifs <;> simp_all

lemma doStopTarget_reset_true_elapsed (st : CtrlState) (tid : Int) (ok : Bool) :
    (doStopTarget st tid true ok).1.elapsedSeconds = 0 := by
  unfold doStopTarget
  split_ifs <;> simp_all

/-! ### Frame lemmas about the step function -/

@[simp] lemma tickStep_running (st : CtrlState) :
    (tickStep st).running = st.running := by
  unfold tickStep; split_ifs <;> rfl

@[simp] lemma tickStep_activeIssue (st : CtrlState) :
    (tickStep st).activeIssue = st.activeIssue := by
  unfold tickStep; split_ifs <;> rfl

@[simp] lemma startStep_activeIssue (st : CtrlState) (ok : Bool) :
    (startStep st ok).1.activeIssue = st.activeIssue := by
  unfold startStep
  cases hA : st.activeIssue with
  | none => simp [hA]
  | some issue => by_cases hr : st.running = true <;> simp [hr, hA]

lemma startStep_elapsed_not_running (st : CtrlState) (ok : Bool)
    (h : st.running = false) :
    (startStep st ok).1.elapsedSeconds = st.elapsedSeconds := by
  unfold startStep
  cases hA : st.activeIssue with
  | none => rfl
  | some issue => simp [h]

lemma startStep_evs_not_running (st : CtrlState) (ok : Bool) (issue : Issue)
    (h : st.running = false) (hA : st.activeIssue = some issue) :
    (startStep st ok).2 = [] := by
  unfold startStep
  simp [h, hA]

@[simp] lemma loadIssueFinish_activeIssue (p : CtrlState × List Ev)
    (issue : Issue) (t ok : Bool) :
    (loadIssueFinish p issue t ok).1.activeIssue = some issue := by
  unfold loadIssueFinish
  cases t <;> simp [startStep]

@[simp] lemma loadIssueFinish_elapsed (p : CtrlState × List Ev)
    (issue : Issue) (t ok : Bool) :
    (loadIssueFinish p issue t ok).1.elapsedSeconds = p.1.elapsedSeconds := by
  unfold loadIssueFinish
  cases t <;> simp [startStep]

@[simp] lemma loadIssueFinish_evs (p : CtrlState × List Ev)
    (issue : Issue) (t ok : Bool) :
    (loadIssueFinish p issue t ok).2 = p.2 := by
  unfold loadIssueFinish
  cases t <;> simp [startStep]

@[simp] lemma loadIssueFinish_running (p : CtrlState × List Ev)
    (issue : Issue) (t ok : Bool) :
    (loadIssueFinish p issue t ok).1.running = t := by
  unfold loadIssueFinish
  cases t <;> simp [startStep]

lemma loadIssuePre_spec (st : CtrlState) (issueId : Int) (sn ok : Bool) :
    loadIssuePre st issueId sn ok = (st, []) ∨
    ∃ tid, loadIssuePre st issueId sn ok = doStopTarget st tid true ok := by
  unfold loadIssuePre
  cases hA : st.activeIssue with
  | none => left; rfl
  | some prev =>
    by_cases hc : st.running = true ∧ prev.id ≠ issueId
    · right
      exact ⟨if sn = true then issueId else prev.id, by simp [hc]⟩
    · left
      simp [hc]

lemma loadIssueStep_elapsed (st : CtrlState) (issueId : Int)
    (startTimer saveNewIssue : Bool) (fetched : Option Issue) (saveOk : Bool) :
    (loadIssueStep st issueId startTimer saveNewIssue fetched saveOk).1.elapsedSeconds
        = st.elapsedSeconds ∨
    (loadIssueStep st issueId startTimer saveNewIssue fetched saveOk).1.elapsedSeconds
        = 0 := by
  unfold loadIssueStep
  rcases loadIssuePre_spec st issueId saveNewIssue saveOk with hp | ⟨tid, hp⟩
  · left
    cases fetched with
    | none => simp [hp]
    | some issue => simp [hp]
  · right
    cases fetched with
    | none => simp [hp, doStopTarget_reset_true_elapsed]
    | some issue => simp [hp, doStopTarget_reset_true_elapsed]

lemma step_elapsed_frame (st : CtrlState) (op : Op) :
    (step st op).1.elapsedSeconds = st.elapsedSeconds ∨
    (step st op).1.elapsedSeconds = 0 ∨
    (op = Op.tick ∧ st.running = true ∧
      (step st op).1.elapsedSeconds = st.elapsedSeconds + 1) := by
  cases op with
  | tick =>
    by_cases hr : st.running = true
    · right; right; exact ⟨rfl, hr, by simp [step, tickStep, hr]⟩
    · left; simp [step, tickStep, hr]
  | start ok =>
    cases hA : st.activeIssue with
    | none => left; simp [step, startStep, hA]
    | some issue =>
      by_cases hr : st.running = true
      · right; left; simp [step, startStep, hA, hr]
      · left; simp [step, startStep, hA, hr]
  | stop r s ok =>
    cases hA : st.activeIssue with
    | none => left; simp [step, stopStep, hA]
    | some issue =>
      rcases doStopTarget_elapsed_cases st issue.id r ok with h | h
      · right; left; simpa [step, stopStep, hA] using h
      · left; simpa [step, stopStep, hA] using h
  | startStop ok =>
    by_cases hr : st.running = true
    · cases hA : st.activeIssue with
      | none => left; simp [step, startStopStep, stopStep, hA, hr]
      | some issue =>
        rcases doStopTarget_elapsed_cases st issue.id true ok with h | h
        · right; left; simpa [step, startStopStep, stopStep, hA, hr] using h
        · left; simpa [step, startStopStep, stopStep, hA, hr] using h
    · cases hA : st.activeIssue with
      | none => left; simp [step, startStopStep, startStep, hA, hr]
      | some issue => left; simp [step, startStopStep, startStep, hA, hr]
  | loadIssue issueId startTimer saveNewIssue fetched saveOk =>
    rcases loadIssueStep_elapsed st issueId startTimer saveNewIssue fetched saveOk
      with h | h
    · left; exact h
    · right; left; exact h
  | selectActivity aId => left; simp [step, selectActivityStep]; split_ifs <;> rfl
  | updateIssueStatus statusId ok =>
    cases hA : st.activeIssue with
    | none => left; simp [step, updateIssueStatusStep, hA]
    | some issue =>
      left; cases ok <;> simp [step, updateIssueStatusStep, hA]
  | loadActivities acts => left; rfl

lemma step_elapsed_nonneg (st : CtrlState) (op : Op)
    (h0 : 0 ≤ st.elapsedSeconds) : 0 ≤ (step st op).1.elapsedSeconds := by
  rcases step_elapsed_frame st op with h | h | ⟨_, _, h⟩ <;> omega

lemma run_elapsed_nonneg (ops : List Op) :
    ∀ st : CtrlState, 0 ≤ st.elapsedSeconds →
      0 ≤ (run st ops).1.elapsedSeconds := by
  induction ops with
  | nil => intro st h; simpa [run] using h
  | cons op ops ih =>
    intro st h
    simp only [run]
    exact ih _ (step_elapsed_nonneg st op h)


/-! ### Claim theorems -/

/-- C5: a `stop()` call made while `Running` with `elapsedSeconds == 0` issues
no remote `createTimeEntry` call (no events at all) and simply transitions to
`Loaded`: the timer halts and the active issue is kept. -/
theorem stop_skips_save_when_zero (st : CtrlState) (issue : Issue)
    (hA : st.activeIssue = some issue) (hR : st.running = true)
    (hE : st.elapsedSeconds = 0) (r s ok : Bool) :
    (step st (Op.stop r s ok)).2 = [] ∧
    (step st (Op.stop r s ok)).1.running = false ∧
    (step st (Op.stop r s ok)).1.activeIssue = some issue := by
  simp [step, stopStep, hA, doStopTarget, hE]

/-- Witness for C5 at a concrete running state with a zero counter. -/
theorem stop_skips_save_when_zero_witness :
    (step runningStateZero (Op.stop true true true)).2 = [] ∧
    (step runningStateZero (Op.stop true true true)).1.running = false ∧
    (step runningStateZero (Op.stop true true true)).1.activeIssue = some issueA :=
  stop_skips_save_when_zero runningStateZero issueA rfl rfl rfl true true true

/-- C7: a `start()` call with no active issue fails with `InvalidLocalState`,
reported as a warning, the transition is refused and the state is left
completely unchanged (in particular an `Idle` state stays `Idle`). -/
theorem start_no_issue_fails (st : CtrlState) (hA : st.activeIssue = none)
    (ok : Bool) :
    step st (Op.start ok) =
      (st, [Ev.report ErrKind.InvalidLocalState Severity.warning]) := by
  simp [step, startStep, hA]

/-- Witness for C7 at the initial (`Idle`) state. -/
theorem start_no_issue_fails_witness :
    step initState (Op.start true) =
      (initState, [Ev.report ErrKind.InvalidLocalState Severity.warning]) :=
  start_no_issue_fails initState rfl true

/-- C6: a `start()` call made while already `Running` with pending tracked
time first issues the stop-and-save `createTimeEntry` request for the current
issue carrying the pending duration, then starts the counter fresh from 0 in
state `Running`; the pending duration is never merged into the new one. -/
theorem start_while_running_saves_then_fresh (st : CtrlState) (issue : Issue)
    (hA : st.activeIssue = some issue) (hR : st.running = true)
    (hE : 0 < st.elapsedSeconds) (ok : Bool) :
    Ev.createTimeEntry issue.id st.activityId st.elapsedSeconds st.clock ∈
      (step st (Op.start ok)).2 ∧
    (step st (Op.start ok)).1.running = true ∧
    (step st (Op.start ok)).1.elapsedSeconds = 0 := by
  have hne : st.elapsedSeconds ≠ 0 := by omega
  cases ok <;> simp [step, startStep, hA, hR, doStopTarget, hne]

/-- Witness for C6 at a concrete running state with 30 tracked seconds. -/
theorem start_while_running_saves_then_fresh_witness :
    Ev.createTimeEntry issueA.id runningState.activityId
      runningState.elapsedSeconds runningState.clock ∈
      (step runningState (Op.start true)).2 ∧
    (step runningState (Op.start true)).1.running = true ∧
    (step runningState (Op.start true)).1.elapsedSeconds = 0 :=
  start_while_running_saves_then_fresh runningState issueA rfl rfl (by decide) true

/-- C10: `loadIssue` with the C++ default arguments of src/RedTimer.h line 205
uses `startTimer = true`, so a successful load ends in the `Running` state on
the newly loaded issue rather than in `Loaded`. -/
theorem loadIssue_default_auto_starts (st : CtrlState) (issueId : Int)
    (i : Issue) (ok : Bool) :
    loadIssueDefaults issueId (some i) ok =
      Op.loadIssue issueId true false (some i) ok ∧
    (step st (loadIssueDefaults issueId (some i) ok)).1.running = true ∧
    (step st (loadIssueDefaults issueId (some i) ok)).1.activeIssue = some i := by
  refine ⟨rfl, ?_⟩
  unfold loadIssueDefaults step loadIssueStep
  cases hA : st.activeIssue with
  | none => simp [startStep]
  | some prev =>
    by_cases hc : st.running = true ∧ prev.id ≠ issueId
    · simp [hc, startStep]
    · simp [hc, startStep]

/-- C4: a `stop()` whose remote `createTimeEntry` fails: with
`resetTimerOnError = false` the counter is preserved unchanged and a
subsequent successful `stop()` retry persists the very same duration; with
`resetTimerOnError = true` the counter is reset; in both failure cases the
error is reported and ticking halts with the active issue kept (`Loaded`). -/
theorem stop_failure_preserves_counter (st : CtrlState) (issue : Issue)
    (hA : st.activeIssue = some issue) (hR : st.running = true)
    (hE : 0 < st.elapsedSeconds) (s r2 s2 : Bool) :
    ((step st (Op.stop false s false)).1.elapsedSeconds = st.elapsedSeconds ∧
     (step st (Op.stop false s false)).1.running = false ∧
     (step st (Op.stop false s false)).1.activeIssue = some issue ∧
     Ev.report ErrKind.NetworkFailure Severity.error ∈
       (step st (Op.stop false s false)).2 ∧
     Ev.createTimeEntry issue.id st.activityId st.elapsedSeconds st.clock ∈
       (step (step st (Op.stop false s false)).1 (Op.stop r2 s2 true)).2 ∧
     Ev.timeEntrySaved ∈
       (step (step st (Op.stop false s false)).1 (Op.stop r2 s2 true)).2 ∧
     (step (step st (Op.stop false s false)).1 (Op.stop r2 s2 true)).1.elapsedSeconds
       = 0) ∧
    ((step st (Op.stop true s false)).1.elapsedSeconds = 0 ∧
     (step st (Op.stop true s false)).1.running = false ∧
     (step st (Op.stop true s false)).1.activeIssue = some issue ∧
     Ev.report ErrKind.NetworkFailure Severity.error ∈
       (step st (Op.stop true s false)).2) := by
  have hne : st.elapsedSeconds ≠ 0 := by omega
  simp [step, stopStep, hA, doStopTarget, hne]

/-- Witness for C4 at a concrete running state with 30 tracked seconds. -/
theorem stop_failure_preserves_counter_witness :
    (step runningState (Op.stop false true false)).1.elapsedSeconds =
      runningState.elapsedSeconds ∧
    Ev.createTimeEntry issueA.id runningState.activityId
      runningState.elapsedSeconds runningState.clock ∈
      (step (step runningState (Op.stop false true false)).1
        (Op.stop true true true)).2 ∧
    (step runningState (Op.stop true true false)).1.elapsedSeconds = 0 := by
  have h := stop_failure_preserves_counter runningState issueA rfl rfl
    (by decide) true true true
  exact ⟨h.1.1, h.1.2.2.2.2.1, h.2.1⟩

/-- Counterexample to C1 as stated.  From a state running on issue 1 with 30
pending seconds, `loadIssue(2, …, true)` attributes the pending time to the
*newly loaded* issue 2 — not, as the claim says of a true third argument, to
the previous issue 1 — and `loadIssue(2, …, false)` (the default) saves the
pending time for the previous issue 1 instead of discarding it: with the
third argument false nothing is ever discarded. -/
theorem loadIssue_third_arg_counterexample :
    (step runningState (Op.loadIssue 2 false true (some issueB) true)).2 =
      [Ev.createTimeEntry 2 9 30 30, Ev.timeEntrySaved] ∧
    (¬ Ev.createTimeEntry 1 9 30 30 ∈
      (step runningState (Op.loadIssue 2 false true (some issueB) true)).2) ∧
    (step runningState (Op.loadIssue 2 false false (some issueB) true)).2 =
      [Ev.createTimeEntry 1 9 30 30, Ev.timeEntrySaved] := by
  have hT : (step runningState (Op.loadIssue 2 false true (some issueB) true)).2 =
      [Ev.createTimeEntry 2 9 30 30, Ev.timeEntrySaved] := by decide
  refine ⟨hT, ?_, by decide⟩
  rw [hT]
  simp

/-- C1 (amended): when `loadIssue` is called while `Running` on a different
issue, the stop-and-save sequence runs and the third boolean parameter
(`saveNewIssue`, per its doc comment in src/RedTimer.h) decides which issue
the pending tracked time is attributed to: false (the default) attributes it
to the previous issue, true to the newly loaded issue; in either case a
`createTimeEntry` request carrying the pending duration is issued, so the
pending time is never silently dropped. -/
theorem loadIssue_saves_before_switch (st : CtrlState) (prev i : Issue)
    (hA : st.activeIssue = some prev) (hR : st.running = true)
    (hne : prev.id ≠ i.id) (hE : 0 < st.elapsedSeconds)
    (startTimer saveNewIssue ok : Bool) :
    (saveNewIssue = false →
      Ev.createTimeEntry prev.id st.activityId st.elapsedSeconds st.clock ∈
        (step st (Op.loadIssue i.id startTimer saveNewIssue (some i) ok)).2) ∧
    (saveNewIssue = true →
      Ev.createTimeEntry i.id st.activityId st.elapsedSeconds st.clock ∈
        (step st (Op.loadIssue i.id startTimer saveNewIssue (some i) ok)).2) ∧
    0 < numCreates
      (step st (Op.loadIssue i.id startTimer saveNewIssue (some i) ok)).2 := by
  have hne2 : st.elapsedSeconds ≠ 0 := by omega
  have hc : st.running = true ∧ prev.id ≠ i.id := ⟨hR, hne⟩
  cases saveNewIssue <;> cases ok <;>
    simp [step, loadIssueStep, loadIssuePre, hA, hc, doStopTarget, hne2,
      numCreates, isCreate]

/-- Witness for the amended C1 with the default `saveNewIssue = false`. -/
theorem loadIssue_saves_before_switch_witness :
    Ev.createTimeEntry issueA.id runningState.activityId
      runningState.elapsedSeconds runningState.clock ∈
      (step runningState (Op.loadIssue issueB.id true false (some issueB) true)).2 ∧
    0 < numCreates
      (step runningState (Op.loadIssue issueB.id true false (some issueB) true)).2 := by
  have h := loadIssue_saves_before_switch runningState issueA issueB rfl rfl
    (by decide) (by decide) true false true
  exact ⟨h.1 rfl, h.2.2⟩

/-! ### Recent-issue registry lemmas -/

lemma addRecentIssue_nodup (l : List Issue) (issue : Issue)
    (h : (l.map Issue.id).Nodup) :
    ((addRecentIssue l issue).map Issue.id).Nodup := by
  unfold addRecentIssue
  rw [List.map_take]
  refine List.Nodup.sublist (List.take_sublist _ _) ?_
  rw [List.map_cons, List.nodup_cons]
  constructor
  · intro hmem
    rcases List.mem_map.mp hmem with ⟨i, hi, hid⟩
    rcases List.mem_filter.mp hi with ⟨_, hne⟩
    have hne2 : i.id ≠ issue.id := by simpa using hne
    exact hne2 hid
  · exact List.Nodup.sublist (List.Sublist.map Issue.id (List.filter_sublist _)) h

lemma addRecentIssue_length_le (l : List Issue) (issue : Issue) :
    (addRecentIssue l issue).length ≤ 10 := by
  unfold addRecentIssue
  simp [List.length_take]

lemma addRecentIssue_head (l : List Issue) (issue : Issue) :
    (addRecentIssue l issue).head? = some issue := by
  unfold addRecentIssue
  rfl

lemma filter_ne_id_length (l : List Issue) (x : Int)
    (hnd : (l.map Issue.id).Nodup) (hx : x ∈ l.map Issue.id) :
    (l.filter (fun i => i.id ≠ x)).length + 1 = l.length := by
  induction l with
  | nil => simp at hx
  | cons a t ih =>
    rw [List.map_cons, List.nodup_cons] at hnd
    rw [List.map_cons, List.mem_cons] at hx
    by_cases hax : a.id = x
    · have hall : ∀ b ∈ t, ¬ b.id = x := by
        intro b hb e
        refine hnd.1 ?_
        rw [hax, ← e]
        exact List.mem_map_of_mem Issue.id hb
      have hdrop : (a :: t).filter (fun i => i.id ≠ x) = t := by
        simp [List.filter_cons, hax]
        exact hall
      rw [hdrop, List.length_cons]
    · have hxt : x ∈ t.map Issue.id := by
        rcases hx with h1 | h2
        · exact absurd h1.symm hax
        · exact h2
      have hrec := ih hnd.2 hxt
      have hkeep : (List.filter (fun i => decide (i.id ≠ x)) (a :: t)).length
          = (List.filter (fun i => decide (i.id ≠ x)) t).length + 1 := by
        simp [List.filter_cons, hax]
      simp only [hkeep, List.length_cons]
      omega

lemma addRecentIssue_length_mem (l : List Issue) (issue : Issue)
    (hnd : (l.map Issue.id).Nodup) (hlen : l.length ≤ 10)
    (hmem : issue.id ∈ l.map Issue.id) :
    (addRecentIssue l issue).length = l.length := by
  unfold addRecentIssue
  have h1 := filter_ne_id_length l issue.id hnd hmem
  rw [List.length_take]
  simp only [List.length_cons]
  omega

lemma foldl_addRecentIssue_nodup (adds : List Issue) :
    ∀ l : List Issue, (l.map Issue.id).Nodup →
      ((List.foldl addRecentIssue l adds).map Issue.id).Nodup := by
  induction adds with
  | nil => intro l h; simpa using h
  | cons a t ih =>
    intro l h
    exact ih _ (addRecentIssue_nodup l a h)

lemma foldl_addRecentIssue_length (adds : List Issue) :
    ∀ l : List Issue, l.length ≤ 10 →
      (List.foldl addRecentIssue l adds).length ≤ 10 := by
  induction adds with
  | nil => intro l h; simpa using h
  | cons a t ih =>
    intro l _
    exact ih _ (addRecentIssue_length_le l a)

/-- C8: after any sequence of adds starting from the empty registry, the
recent-issues list is unique by issue identifier and never longer than 10;
one further add puts the added issue at the front, and if its identifier was
already present the length does not change (the old occurrence is removed
rather than duplicated). -/
theorem recent_issues_registry_invariants (adds : List Issue) (issue : Issue) :
    ((List.foldl addRecentIssue [] adds).map Issue.id).Nodup ∧
    (List.foldl addRecentIssue [] adds).length ≤ 10 ∧
    (addRecentIssue (List.foldl addRecentIssue [] adds) issue).head? =
      some issue ∧
    (addRecentIssue (List.foldl addRecentIssue [] adds) issue).length ≤ 10 ∧
    (issue.id ∈ (List.foldl addRecentIssue [] adds).map Issue.id →
      (addRecentIssue (List.foldl addRecentIssue [] adds) issue).length =
        (List.foldl addRecentIssue [] adds).length) := by
  have hnd := foldl_addRecentIssue_nodup adds [] (by simp)
  have hlen := foldl_addRecentIssue_length adds [] (by simp)
  exact ⟨hnd, hlen, addRecentIssue_head _ _, addRecentIssue_length_le _ _,
    fun hmem => addRecentIssue_length_mem _ _ hnd hlen hmem⟩

/-- Witness for C8: adding issue 1, then 2, then 1 again keeps the registry at
two entries with issue 1 back at the front. -/
theorem recent_issues_registry_invariants_witness :
    ((List.foldl addRecentIssue [] [issueA, issueB]).map Issue.id).Nodup ∧
    (addRecentIssue (List.foldl addRecentIssue [] [issueA, issueB]) issueA).length =
      (List.foldl addRecentIssue [] [issueA, issueB]).length := by
  have h := recent_issues_registry_invariants [issueA, issueB] issueA
  exact ⟨h.1, h.2.2.2.2 (by decide)⟩

/-! ### The running-implies-active-issue invariant -/

lemma step_preserves_invC3 (st : CtrlState) (op : Op)
    (h : st.running = true → st.activeIssue ≠ none) :
    (step st op).1.running = true → (step st op).1.activeIssue ≠ none := by
  cases op with
  | tick => simpa [step] using h
  | start ok =>
    cases hA : st.activeIssue with
    | none =>
      intro hr
      simp only [step, startStep, hA] at hr ⊢
      exact absurd hA (h hr)
    | some issue =>
      intro _
      simp [step, hA]
  | stop r s ok =>
    cases hA : st.activeIssue with
    | none => simp [step, stopStep, hA]
    | some issue => simp [step, stopStep, hA]
  | startStop ok =>
    by_cases hr : st.running = true
    · cases hA : st.activeIssue with
      | none => simp [step, startStopStep, stopStep, hA, hr]
      | some issue => simp [step, startStopStep, stopStep, hA, hr]
    · cases hA : st.activeIssue with
      | none =>
        intro hr2
        simp only [step, startStopStep, hr, Bool.false_eq_true, if_false,
          startStep, hA] at hr2 ⊢
      | some issue =>
        intro _
        simp [step, startStopStep, hr, hA]
  | loadIssue issueId startTimer saveNewIssue fetched saveOk =>
    cases fetched with
    | some issue =>
      intro _
      simp [step, loadIssueStep]
    | none =>
      intro hr
      simp only [step, loadIssueStep] at hr ⊢
      rcases loadIssuePre_spec st issueId saveNewIssue saveOk with hp | ⟨tid, hp⟩
      · rw [hp] at hr ⊢
        exact h hr
      · rw [hp] at hr
        simp at hr
  | selectActivity aId =>
    intro hr
    simp only [step, selectActivityStep] at hr ⊢
    split_ifs at hr ⊢ <;> exact h hr
  | updateIssueStatus statusId ok =>
    cases hA : st.activeIssue with
    | none =>
      intro hr
      simp only [step, updateIssueStatusStep, hA] at hr ⊢
      exact absurd hA (h hr)
    | some issue =>
      intro _
      cases ok <;> simp [step, updateIssueStatusStep, hA]
  | loadActivities acts =>
    intro hr
    simp only [step] at hr ⊢
    exact h hr

/-- C3: in every reachable state, `running = true` implies an active issue is
set, and this invariant is preserved by every single operation (`loadIssue`,
`start`, `stop`, `startStop`, `selectActivity`, `updateIssueStatus`, ticks and
activity loading), starting from any state that satisfies it. -/
theorem running_implies_active_issue :
    (∀ st : CtrlState, Reachable st → st.running = true → st.activeIssue ≠ none) ∧
    (∀ (st : CtrlState) (op : Op), (st.running = true → st.activeIssue ≠ none) →
      ((step st op).1.running = true → (step st op).1.activeIssue ≠ none)) := by
  constructor
  · intro st hreach
    induction hreach with
    | init => intro h; simp [initState] at h
    | next st' op _ ih => exact step_preserves_invC3 st' op ih
  · exact step_preserves_invC3

/-- Witness for C3: the state reached by loading issue 1 with auto-start is
running, and the theorem yields that its active issue is set. -/
theorem running_implies_active_issue_witness :
    (step initState (Op.loadIssue 1 true false (some issueA) true)).1.activeIssue
      ≠ none :=
  running_implies_active_issue.1 _
    (Reachable.next initState (Op.loadIssue 1 true false (some issueA) true)
      Reachable.init)
    (by decide)

/-! ### Counting save requests and save notifications -/

lemma countSaved_append (l1 l2 : List Ev) :
    countSaved (l1 ++ l2) = countSaved l1 + countSaved l2 := by
  simp [countSaved, List.filter_append]

lemma numCreates_append (l1 l2 : List Ev) :
    numCreates (l1 ++ l2) = numCreates l1 + numCreates l2 := by
  simp [numCreates, List.filter_append]

lemma savedOk_append (l1 l2 : List Ev) :
    savedOk (l1 ++ l2) ↔ savedOk l1 ∨ savedOk l2 := by
  simp [savedOk]

lemma doStopTarget_counts (st : CtrlState) (tid : Int) (r ok : Bool) :
    countSaved (doStopTarget st tid r ok).2 =
      (if ok = true then numCreates (doStopTarget st tid r ok).2 else 0) := by
  unfold doStopTarget
  by_cases h1 : st.elapsedSeconds = 0
  · cases ok <;> simp [h1, countSaved, numCreates]
  · cases ok <;> simp [h1, countSaved, numCreates, isCreate]

lemma startStep_counts (st : CtrlState) (ok : Bool) :
    countSaved (startStep st ok).2 =
      (if ok = true then numCreates (startStep st ok).2 else 0) := by
  unfold startStep
  cases hA : st.activeIssue with
  | none => cases ok <;> simp [countSaved, numCreates, isCreate]
  | some issue =>
    by_cases hr : st.running = true
    · simpa [hr] using doStopTarget_counts st issue.id true ok
    · cases ok <;> simp [hr, countSaved, numCreates]

lemma stopStep_counts (st : CtrlState) (r s ok : Bool) :
    countSaved (stopStep st r s ok).2 =
      (if ok = true then numCreates (stopStep st r s ok).2 else 0) := by
  unfold stopStep
  cases hA : st.activeIssue with
  | none => cases ok <;> simp [countSaved, numCreates]
  | some issue => simpa using doStopTarget_counts st issue.id r ok

lemma loadIssuePre_counts (st : CtrlState) (issueId : Int) (sn ok : Bool) :
    countSaved (loadIssuePre st issueId sn ok).2 =
      (if ok = true then numCreates (loadIssuePre st issueId sn ok).2 else 0) := by
  rcases loadIssuePre_spec st issueId sn ok with hp | ⟨tid, hp⟩
  · rw [hp]; cases ok <;> simp [countSaved, numCreates]
  · rw [hp]; exact doStopTarget_counts st tid true ok

/-- C9: in every controller step, the `timeEntrySaved` notification is emitted
exactly as many times as `createTimeEntry` requests succeed: once per
successful request, and never when the request failed or the save was
skipped (no request in the step's events). -/
theorem time_entry_saved_once_per_success (st : CtrlState) (op : Op) :
    countSaved (step st op).2 =
      (if saveOracle op = true then numCreates (step st op).2 else 0) := by
  cases op with
  | tick => simp [step, saveOracle, countSaved, numCreates]
  | start ok => simpa [saveOracle] using startStep_counts st ok
  | stop r s ok => simpa [saveOracle] using stopStep_counts st r s ok
  | startStop ok =>
    unfold step startStopStep
    by_cases hr : st.running = true
    · simpa [hr, saveOracle] using stopStep_counts st true true ok
    · simpa [hr, saveOracle] using startStep_counts st ok
  | loadIssue issueId startTimer saveNewIssue fetched saveOk =>
    cases fetched with
    | none =>
      simp only [step, loadIssueStep, saveOracle]
      rw [countSaved_append, numCreates_append]
      have h := loadIssuePre_counts st issueId saveNewIssue saveOk
      cases saveOk <;> simp_all [countSaved, numCreates, isCreate]
    | some issue =>
      simp only [step, loadIssueStep, loadIssueFinish_evs, saveOracle]
      exact loadIssuePre_counts st issueId saveNewIssue saveOk
  | selectActivity aId =>
    by_cases hm : aId ∈ st.activityCache <;>
      simp [step, selectActivityStep, hm, saveOracle, countSaved, numCreates]
  | updateIssueStatus statusId ok =>
    unfold step updateIssueStatusStep
    cases hA : st.activeIssue <;> cases ok <;>
      simp [saveOracle, countSaved, numCreates]
  | loadActivities acts => simp [step, saveOracle, countSaved]

/-! ### When exactly the counter resets -/

lemma doStopTarget_reset_iff (st : CtrlState) (tid : Int) (r ok : Bool)
    (h0 : 0 ≤ st.elapsedSeconds) :
    (((doStopTarget st tid r ok).1.elapsedSeconds = 0 ∧ 0 < st.elapsedSeconds) ↔
      (savedOk (doStopTarget st tid r ok).2 ∨
       (r = true ∧ 0 < numCreates (doStopTarget st tid r ok).2 ∧
        Ev.timeEntrySaved ∉ (doStopTarget st tid r ok).2))) := by
  unfold doStopTarget
  by_cases h1 : st.elapsedSeconds = 0
  · simp [h1, savedOk, numCreates, isCreate]
  · cases ok with
    | true => simp [h1, savedOk, numCreates, isCreate]; omega
    | false =>
      cases r <;> simp [h1, savedOk, numCreates, isCreate] <;> omega

lemma doStopTarget_true_rhs (st : CtrlState) (tid : Int) (ok : Bool)
    (h0 : 0 ≤ st.elapsedSeconds) :
    ((savedOk (doStopTarget st tid true ok).2 ∨
      (0 < numCreates (doStopTarget st tid true ok).2 ∧
       Ev.timeEntrySaved ∉ (doStopTarget st tid true ok).2)) ↔
      0 < st.elapsedSeconds) := by
  have h := doStopTarget_reset_iff st tid true ok h0
  rw [doStopTarget_reset_true_elapsed] at h
  simpa using h.symm

lemma step_reset_iff (st : CtrlState) (op : Op) (h0 : 0 ≤ st.elapsedSeconds) :
    (((step st op).1.elapsedSeconds = 0 ∧ 0 < st.elapsedSeconds) ↔
      (savedOk (step st op).2 ∨ discardsTime op (step st op).2)) := by
  cases op with
  | tick =>
    by_cases hr : st.running = true <;>
      simp [step, tickStep, hr, savedOk, discardsTime, numCreates] <;> omega
  | start ok =>
    cases hA : st.activeIssue with
    | none =>
      simp [step, startStep, hA, savedOk, discardsTime, numCreates, isCreate]
      omega
    | some issue =>
      by_cases hr : st.running = true
      · have h := doStopTarget_true_rhs st issue.id ok h0
        simp [step, startStep, hA, hr, discardsTime, resetOnErrorFlag]
        exact h.symm
      · simp [step, startStep, hA, hr, savedOk, discardsTime, numCreates]
        omega
  | stop r s ok =>
    cases hA : st.activeIssue with
    | none =>
      simp [step, stopStep, hA, savedOk, discardsTime, numCreates]
      omega
    | some issue =>
      simpa [step, stopStep, hA, discardsTime, resetOnErrorFlag] using
        doStopTarget_reset_iff st issue.id r ok h0
  | startStop ok =>
    by_cases hr : st.running = true
    · cases hA : st.activeIssue with
      | none =>
        simp [step, startStopStep, stopStep, hA, hr, savedOk, discardsTime,
          numCreates]
        omega
      | some issue =>
        simpa [step, startStopStep, stopStep, hA, hr, discardsTime,
          resetOnErrorFlag] using doStopTarget_reset_iff st issue.id true ok h0
    · cases hA : st.activeIssue with
      | none =>
        simp [step, startStopStep, startStep, hA, hr, savedOk, discardsTime,
          numCreates, isCreate]
        omega
      | some issue =>
        simp [step, startStopStep, startStep, hA, hr, savedOk, discardsTime,
          numCreates]
        omega
  | loadIssue issueId startTimer saveNewIssue fetched saveOk =>
    rcases loadIssuePre_spec st issueId saveNewIssue saveOk with hp | ⟨tid, hp⟩
    · cases fetched with
      | none =>
        simp [step, loadIssueStep, hp, savedOk, discardsTime, numCreates,
          isCreate]
        omega
      | some issue =>
        simp [step, loadIssueStep, hp, savedOk, discardsTime, numCreates]
        omega
    · have h := doStopTarget_true_rhs st tid saveOk h0
      cases fetched with
      | none =>
        simp [step, loadIssueStep, hp, doStopTarget_reset_true_elapsed,
          discardsTime, resetOnErrorFlag, savedOk_append, numCreates_append,
          savedOk, numCreates, isCreate]
        rw [← savedOk]
        exact h.symm
      | some issue =>
        simp [step, loadIssueStep, hp, doStopTarget_reset_true_elapsed,
          discardsTime, resetOnErrorFlag]
        exact h.symm
  | selectActivity aId =>
    by_cases hm : aId ∈ st.activityCache <;>
      simp [step, selectActivityStep, hm, savedOk, discardsTime, numCreates,
        isCreate] <;> omega
  | updateIssueStatus statusId ok =>
    cases hA : st.activeIssue with
    | none =>
      simp [step, updateIssueStatusStep, hA, savedOk, discardsTime,
        numCreates, isCreate]
      omega
    | some issue =>
      cases ok <;>
        simp [step, updateIssueStatusStep, hA, savedOk, discardsTime,
          numCreates, isCreate] <;> omega
  | loadActivities acts =>
    simp [step, savedOk, discardsTime, numCreates]
    omega

/-- C2: the elapsed-seconds counter is non-negative after every operation
sequence from the initial state; a step strictly increases it only while the
state is `Running`; and it drops from a positive value to 0 in a step exactly
when that step's save succeeded (`timeEntrySaved` emitted) or the tracked
time was discarded (a `createTimeEntry` was issued, failed, and the counter
reset was requested). -/
theorem elapsed_counter_invariants :
    (∀ ops : List Op, 0 ≤ (run initState ops).1.elapsedSeconds) ∧
    (∀ (st : CtrlState) (op : Op), 0 ≤ st.elapsedSeconds →
      (0 ≤ (step st op).1.elapsedSeconds ∧
       (st.elapsedSeconds < (step st op).1.elapsedSeconds → st.running = true) ∧
       (((step st op).1.elapsedSeconds = 0 ∧ 0 < st.elapsedSeconds) ↔
         (savedOk (step st op).2 ∨ discardsTime op (step st op).2)))) := by
  refine ⟨fun ops => run_elapsed_nonneg ops initState (by simp [initState]), ?_⟩
  intro st op h0
  refine ⟨step_elapsed_nonneg st op h0, ?_, step_reset_iff st op h0⟩
  intro hlt
  rcases step_elapsed_frame st op with h | h | ⟨_, hr, _⟩
  · omega
  · omega
  · exact hr

/-- Witness for C2 on concrete inputs: a tick from the initial state and a
successful stop from a running state with 30 tracked seconds. -/
theorem elapsed_counter_invariants_witness :
    0 ≤ (run initState [Op.tick]).1.elapsedSeconds ∧
    0 ≤ (step runningState (Op.stop true true true)).1.elapsedSeconds :=
  ⟨elapsed_counter_invariants.1 [Op.tick],
   (elapsed_counter_invariants.2 runningState (Op.stop true true true)
     (by decide)).1⟩

end RedTimer
